import Mathlib

/-!
Verification of the AllSpark dataframe-comparison engine
(`src/AllSpark/core/pd_compare.py`, class `Compare`) against its
natural-language specification.

Shallow embedding conventions:
* Machine floats are modelled by `FloatV`: a finite rational or NaN
  (infinities are out of scope for every claim).
* A pandas cell is a `Cell`: a Python float (`cfloat`, with `cfloat .fnan`
  standing for a missing value / `np.nan`), a Python string (`cstr`, which
  carries the result of Python's `float(s)` as data, since the Python float
  parser itself is not re-implemented here: `none` means `float(s)` raises
  `ValueError`), a datetime (`cdt`, an integer timestamp), or `NaT` (`cnat`).
* Integer columns are modelled as rationals: pandas coerces them to float64
  on outer merges and compares them numerically.
* The sentinel diff marker `Constants.DIFF_TRUE` ('DIFF.TRUE') is the
  `DiffVal.diffTrue` constructor; a null diff cell (`np.nan`) is
  `DiffVal.noDiff`; a numeric difference is `DiffVal.numDiff`; a timedelta
  difference is `DiffVal.tdDiff`.
* `compare_numeric_columns` iterates positionally over a fresh close-mask
  series, but its loop body reads `col1[index]`/`col2[index]` with pandas
  *label* lookups against the columns' index — inside the pipeline the
  merged key index, since `_merge_dataframe` ends with
  `set_index(key_columns)`.  `seriesGetInt` models an integer lookup
  against a numeric key index (label-matched; empty = `KeyError`,
  duplicated = a sub-`Series` whose ambiguous truth value raises
  `ValueError` in the `elif`); non-numeric or multi-column key indexes,
  where pandas resolves integers differently, are not modelled and no
  theorem instantiates them.  Comparator exceptions make the comparison
  pipeline fallible (`Except PyError`).
-/

namespace AllSpark

/-- An IEEE float as used by the comparison code: finite rational or NaN. -/
inductive FloatV
  | fin (q : ℚ)
  | fnan
  deriving DecidableEq, Repr

/-- A pandas cell value. -/
inductive Cell
  | cfloat (v : FloatV)
  | cstr (s : String) (fl : Option FloatV)
  | cdt (t : ℤ)
  | cnat
  deriving DecidableEq, Repr

instance : Inhabited Cell := ⟨Cell.cfloat FloatV.fnan⟩

/-- A per-cell diff value as stored in a diff column:
`noDiff` = `np.nan`, `numDiff q` = a float difference, `tdDiff t` = a
timedelta difference, `diffTrue` = the `Constants.DIFF_TRUE` sentinel. -/
inductive DiffVal
  | noDiff
  | numDiff (q : ℚ)
  | tdDiff (t : ℤ)
  | diffTrue
  deriving DecidableEq, Repr

/-- `pd.merge(indicator='rows_present')` markers. -/
inductive Pres
  | both
  | leftOnly
  | rightOnly
  deriving DecidableEq, Repr

/-- A pandas column dtype class as dispatched on by `Compare.compare_column`:
numeric (`np.number`), datetime (`kind == 'M'`) or object (`kind == 'O'`). -/
inductive ColKind
  | knum
  | kobj
  | kdt
  deriving DecidableEq, Repr

/-- `np.isnan` on a float. -/
def isNanF : FloatV → Bool
  | .fnan => true
  | _ => false

/-- Float subtraction: NaN propagates. -/
def fsub : FloatV → FloatV → FloatV
  | .fin x, .fin y => .fin (x - y)
  | _, _ => .fnan

/-- `np.isclose(a, b, rtol, atol)` with the default `equal_nan=False`:
`|a - b| <= atol + rtol * |b|`; false as soon as one side is NaN. -/
def iscloseF (atol rtol : ℚ) : FloatV → FloatV → Bool
  | .fin a, .fin b => |a - b| ≤ atol + rtol * |b|
  | _, _ => false

/-- `np.isclose(a, b, rtol, atol, equal_nan=True)`: additionally NaN is
close to NaN. -/
def iscloseEqNan (atol rtol : ℚ) (a b : FloatV) : Bool :=
  (isNanF a && isNanF b) || iscloseF atol rtol a b

/-- Python `==` on two cells, as used by `row[0] != row[1]` in
`Compare.compare_object_columns`.  NaN is unequal to everything including
itself; `pd.NaT == pd.NaT` is also false; values of different Python types
compare unequal. -/
def pyEq : Cell → Cell → Bool
  | .cfloat (.fin a), .cfloat (.fin b) => a == b
  | .cstr s _, .cstr t _ => s == t
  | .cdt a, .cdt b => a == b
  | _, _ => false

/-- Python `float(x)` on a cell: floats pass through, a string yields its
recorded parse result (`none` = `ValueError`).  Datetimes would raise
`TypeError` (uncaught in the source); they never reach this point through the
dtype dispatch and are mapped to `none` for totality. -/
def toFloatCell : Cell → Option FloatV
  | .cfloat v => some v
  | .cstr _ fl => fl
  | _ => none

/-- One element of `Compare.compare_object_columns`'s loop body: equal cells
keep the `np.nan` fill; unequal cells are coerced with `float(...)`; both
coercions NaN keeps the fill; close values keep the fill; otherwise the float
difference is written, with a NaN difference replaced by the `DIFF.TRUE`
sentinel; a `ValueError` from `float(...)` writes the sentinel. -/
def objCell (atol rtol : ℚ) (a b : Cell) : DiffVal :=
  if pyEq a b then .noDiff
  else
    match toFloatCell a, toFloatCell b with
    | some va, some vb =>
      if isNanF va && isNanF vb then .noDiff
      else if iscloseF atol rtol va vb then .noDiff
      else
        match fsub va vb with
        | .fin q => .numDiff q
        | .fnan => .diffTrue
    | _, _ => .diffTrue

/-- `Compare.compare_object_columns(col1, col2, atol, rtol)`:
`diff = np.full(col2.size, np.nan)` and the loop runs over
`zip(col1, col2)`, so positions past the shorter column keep the fill. -/
def compare_object_columns (col1 col2 : List Cell) (atol rtol : ℚ) :
    List DiffVal :=
  (List.zip col1 col2).map (fun p => objCell atol rtol p.1 p.2) ++
    List.replicate (col2.length - min col1.length col2.length) .noDiff

/-- One element of `Compare.compare_timeseries_column`: `col1 - col2`.
A `NaT` on either side propagates to `NaT`, which is a null diff value;
note that two equal datetimes yield the non-null timedelta `0`. -/
def tsCell : Cell → Cell → DiffVal
  | .cdt a, .cdt b => .tdDiff (a - b)
  | _, _ => .noDiff

/-- `Compare.compare_timeseries_column(col1, col2)`. -/
def compare_timeseries_column (col1 col2 : List Cell) : List DiffVal :=
  List.zipWith tsCell col1 col2

/-! ## The data model: pandas DataFrames and Python objects -/

/-- A pandas `DataFrame`: named columns with dtypes, row labels (the index;
pandas' default `RangeIndex` is `0, 1, ...`), and row-major data.  A
well-formed frame has `kinds.length = cols.length`,
`index.length = rows.length` and every row of length `cols.length`. -/
structure DataFrame where
  cols : List String
  kinds : List ColKind
  index : List ℤ
  rows : List (List Cell)
  deriving DecidableEq, Repr

/-- A Python value handed to `Compare`: a `DataFrame`, `None`, or anything
else (only its not-being-a-DataFrame matters). -/
inductive PyObj
  | pdf (df : DataFrame)
  | pyNone
  | other
  deriving DecidableEq, Repr

/-- The Python exception kinds raised by the constructor path. -/
inductive PyError
  | exception (msg : String)
  | typeError (msg : String)
  | valueError (msg : String)
  | attributeError (msg : String)
  | keyError (msg : String)
  deriving DecidableEq, Repr

/-- `Constants.IF_DUPLICATE_KEY_METHODS`. -/
def IF_DUPLICATE_KEY_METHODS : List String := ["drop", "sort", "aggregate"]

/-- Value equality as used by `Series.equals` / `DataFrame.equals`:
like `==` but NaN equals NaN and NaT equals NaT. -/
def nanEq : Cell → Cell → Bool
  | .cfloat (.fin a), .cfloat (.fin b) => a == b
  | .cfloat .fnan, .cfloat .fnan => true
  | .cstr s _, .cstr t _ => s == t
  | .cdt a, .cdt b => a == b
  | .cnat, .cnat => true
  | _, _ => false

/-- Row-wise `nanEq` (same length and pointwise `nanEq`). -/
def rowNanEq (r1 r2 : List Cell) : Bool :=
  r1.length == r2.length && (List.zipWith nanEq r1 r2).all (fun b => b)

/-- `DataFrame.equals`: same column labels, dtypes, index and NaN-aware
equal values. -/
def dfEquals (l r : DataFrame) : Bool :=
  l.cols == r.cols && l.kinds == r.kinds && l.index == r.index &&
    (l.rows.length == r.rows.length &&
      (List.zipWith rowNanEq l.rows r.rows).all (fun b => b))

/-- `DataFrame.empty`: true when either axis has length 0. -/
def dfEmpty (df : DataFrame) : Bool :=
  df.rows.isEmpty || df.cols.isEmpty

/-- `Compare._validate_dataframe`, together with the property setters that
call it.  `kc` is the state of the `key_columns` attribute: `none` means the
attribute was never set (the `on_index` constructor branch), so reading it
raises `AttributeError`.  The source checks, in order: `isinstance`
(`TypeError`), `df.empty` (`ValueError`), then
`set(self.key_columns).issubset(set(df.columns))` (`ValueError`). -/
def validate_dataframe (kc : Option (List String)) (p : PyObj) (nm : String) :
    Except PyError DataFrame :=
  match p with
  | .pdf df =>
    if dfEmpty df then .error (.valueError (nm ++ " can not be empty"))
    else
      match kc with
      | none => .error (.attributeError
          "Compare object has no attribute key_columns")
      | some ks =>
        if ks.all (fun c => df.cols.contains c) then .ok df
        else .error (.valueError (nm ++ " must have all columns from key columns"))
  | _ => .error (.typeError (nm ++ " must be a pandas DataFrame"))

/-- Position of a column name in a frame's column list (`df.columns`). -/
def colIdx (cols : List String) (c : String) : ℕ :=
  cols.indexOf c

/-- The cell of `row` in column `c` of a frame with columns `cols`. -/
def cellAt (cols : List String) (row : List Cell) (c : String) : Cell :=
  row.getD (colIdx cols c) default

/-- The key tuple of a row: its cells in the key columns, in key order. -/
def keyOf (ks : List String) (cols : List String) (row : List Cell) :
    List Cell :=
  ks.map (cellAt cols row)

/-- Does a list contain a duplicate element?  (`Series.duplicated().any()`.) -/
def listHasDup {α : Type} [DecidableEq α] : List α → Bool
  | [] => false
  | x :: xs => xs.contains x || listHasDup xs

/-- `Compare.check_duplicate_keys` for the key-column path:
`any(left[ks].duplicated() | right[ks].duplicated())`.  (With `ks = []`,
`if self.key_columns:` is falsy and the method returns `None`, which is
falsy at its only use `if self._dups:`; that is the `false` here.) -/
def check_duplicate_keys (ks : List String) (l r : DataFrame) : Bool :=
  if ks.isEmpty then false
  else
    listHasDup (l.rows.map (keyOf ks l.cols)) ||
      listHasDup (r.rows.map (keyOf ks r.cols))

/-- Mask selecting the first occurrence of each index label
(`~df.index.duplicated(keep='first')`). -/
def firstOccMask (seen : List ℤ) : List ℤ → List Bool
  | [] => []
  | i :: rest => (!seen.contains i) :: firstOccMask (i :: seen) rest

/-- Keep the elements of `xs` whose mask bit is true. -/
def maskFilter {α : Type} (mask : List Bool) (xs : List α) : List α :=
  (List.zip mask xs).filterMap (fun p => if p.1 then some p.2 else none)

/-- `df.loc[~df.index.duplicated(keep='first')]`: drops rows whose *index
label* (not key tuple!) already occurred. -/
def dropIndexDups (df : DataFrame) : DataFrame :=
  let mask := firstOccMask [] df.index
  { df with index := maskFilter mask df.index,
            rows := maskFilter mask df.rows }

/-- `df['sort_key'] = np.arange(len(df))`: appends (in place) a numeric
column of the row ordinals. -/
def addSortKey (df : DataFrame) : DataFrame :=
  { df with cols := df.cols ++ ["sort_key"],
            kinds := df.kinds ++ [.knum],
            rows := df.rows.enum.map
              (fun p => p.2 ++ [Cell.cfloat (.fin p.1)]) }

/-- `df.set_index('sort_key', append=True)`: moves the just-appended
`sort_key` column into the index.  The appended index level itself is elided
from the model: the resulting frame fails key-column validation (the mutated
`key_columns` now lists `sort_key`, which is no longer a column) before the
index is ever read. -/
def setIndexSortKey (df : DataFrame) : DataFrame :=
  { df with cols := df.cols.dropLast,
            kinds := df.kinds.dropLast,
            rows := df.rows.map List.dropLast }

/-- `Compare.handle_duplicate_keys(df)`.  Returns the post-call state of the
*caller's* frame (the `'sort'` branch mutates it in place), the post-call
state of the `self.key_columns` list (the `'sort'` branch appends to it in
place), and the method's return value (`None` for `'aggregate'`, whose body
is `pass`). -/
def handle_duplicate_keys (policy : String) (ks : List String)
    (df : DataFrame) : DataFrame × List String × PyObj :=
  if policy == "drop" then (df, ks, .pdf (dropIndexDups df))
  else if policy == "sort" then
    let df' := addSortKey df
    (df', ks ++ ["sort_key"], .pdf (setIndexSortKey df'))
  else (df, ks, .pyNone)

/-! ## The row aligner: `Compare._merge_dataframe` (key-column path)

`pd.merge(left, right, how='outer', sort=True, on=key_columns,
indicator='rows_present', suffixes=(lsuffix, rsuffix)).set_index(key_columns)`.
The merged table is modelled by the parts the comparison reads: the key
index, the `rows_present` marker, and for every common non-key column the
aligned left/right cells together with the two source dtypes (slicing a
partition never changes a pandas dtype, so dtypes are column metadata).
One-sided rows are filled with `np.nan` (`NaT` in datetime columns). -/

/-- A total comparison on float values used only to model `sort=True`'s key
ordering (NaN keys sort after finite ones). -/
def floatLe (a b : FloatV) : Bool :=
  match a, b with
  | .fin x, .fin y => x ≤ y
  | .fin _, .fnan => true
  | .fnan, .fin _ => false
  | .fnan, .fnan => true

/-- Constructor rank, to make the key order total across cell types. -/
def cellRank : Cell → ℕ
  | .cfloat _ => 0
  | .cstr _ _ => 1
  | .cdt _ => 2
  | .cnat => 3

/-- A total order on cells modelling `sort=True` on a key column.
(pandas would raise on mixed-type keys; any total choice is adequate.) -/
def cellLe (a b : Cell) : Bool :=
  match a, b with
  | .cfloat x, .cfloat y => floatLe x y
  | .cstr s _, .cstr t _ => s ≤ t
  | .cdt x, .cdt y => x ≤ y
  | _, _ => cellRank a ≤ cellRank b

/-- Lexicographic order on key tuples. -/
def keyLe : List Cell → List Cell → Bool
  | [], _ => true
  | _ :: _, [] => false
  | a :: as_, b :: bs =>
    if a = b then keyLe as_ bs else cellLe a b

/-- The distinct key tuples occurring on either side, in sorted order. -/
def uniqKeysSorted (allKeys : List (List Cell)) : List (List Cell) :=
  List.insertionSort (fun a b => keyLe a b = true) allKeys.dedup

/-- The common non-key columns (`Compare.common_columns`), a Python set;
modelled in first-occurrence order of the left frame's columns. -/
def commonCols (l r : DataFrame) (ks : List String) : List String :=
  (l.cols.filter (fun c => r.cols.contains c && !ks.contains c)).dedup

/-- The dtype of column `c` in `df`. -/
def kindOf (df : DataFrame) (c : String) : ColKind :=
  df.kinds.getD (colIdx df.cols c) .kobj

/-- The missing-value fill an outer merge writes into a column of the given
dtype: `NaT` for datetimes, `np.nan` otherwise. -/
def fillCell (k : ColKind) : Cell :=
  if k = .kdt then .cnat else .cfloat .fnan

/-- Metadata of one aligned common column: its name and the two source
dtypes. -/
structure MCol where
  name : String
  lkind : ColKind
  rkind : ColKind
  deriving DecidableEq, Repr

/-- One row of the merged table: key tuple (the index after
`set_index(key_columns)`), the `rows_present` marker, and the aligned cells
of the common columns on each side. -/
structure MRow where
  key : List Cell
  pres : Pres
  lcells : List Cell
  rcells : List Cell
  deriving DecidableEq, Repr

/-- The merged table. -/
structure MergedDF where
  mcols : List MCol
  mrows : List MRow
  deriving DecidableEq, Repr

/-- The rows of `df` whose key tuple equals `k` (in stable order).  Note
pandas joins NaN keys to NaN keys, which term-level equality of the NaN
constructor mirrors. -/
def rowsWithKey (df : DataFrame) (ks : List String) (k : List Cell) :
    List (List Cell) :=
  df.rows.filter (fun row => keyOf ks df.cols row == k)

/-- The block of merged rows for one key value: matched rows form the
left-major cross product; one-sided rows are filled on the absent side. -/
def mergeBlock (l r : DataFrame) (ks : List String) (commons : List String)
    (k : List Cell) : List MRow :=
  let lm := rowsWithKey l ks k
  let rm := rowsWithKey r ks k
  if lm.isEmpty then
    rm.map (fun rrow =>
      { key := k, pres := .rightOnly,
        lcells := commons.map (fun c => fillCell (kindOf l c)),
        rcells := commons.map (cellAt r.cols rrow) })
  else if rm.isEmpty then
    lm.map (fun lrow =>
      { key := k, pres := .leftOnly,
        lcells := commons.map (cellAt l.cols lrow),
        rcells := commons.map (fun c => fillCell (kindOf r c)) })
  else
    (lm.map (fun lrow =>
      rm.map (fun rrow =>
        { key := k, pres := .both,
          lcells := commons.map (cellAt l.cols lrow),
          rcells := commons.map (cellAt r.cols rrow) : MRow }))).flatten

/-- `Compare._merge_dataframe` on key columns. -/
def mergeDF (l r : DataFrame) (ks : List String) : MergedDF :=
  let commons := commonCols l r ks
  let allKeys := l.rows.map (keyOf ks l.cols) ++ r.rows.map (keyOf ks r.cols)
  { mcols := commons.map (fun c => ⟨c, kindOf l c, kindOf r c⟩),
    mrows := ((uniqKeysSorted allKeys).map
      (mergeBlock l r ks commons)).flatten }

/-! ## The column differ and diff aggregator: `Compare.compare_column`,
`Compare.multiprocess_compare`, `Compare.drop_non_diff_columns`,
`Compare.prepare_metadata` -/

/-- `Series.equals`: same dtype, length and NaN-aware equal values. -/
def colEquals (k1 k2 : ColKind) (col1 col2 : List Cell) : Bool :=
  k1 == k2 && col1.length == col2.length &&
    (List.zipWith nanEq col1 col2).all (fun b => b)

/-- The float stored in a cell of a numeric-dtype column. -/
def toF : Cell → FloatV
  | .cfloat v => v
  | _ => .fnan

/-- Collect the results of a loop of fallible steps: the first exception
propagates (a Python `for` body that may raise). -/
def exceptSeq {α : Type} : List (Except PyError α) → Except PyError (List α)
  | [] => .ok []
  | x :: xs =>
    match x with
    | .error e => .error e
    | .ok a =>
      match exceptSeq xs with
      | .error e => .error e
      | .ok as_ => .ok (a :: as_)

/-- `series[i]` with an integer `i` on a series carrying the merged key
index: pandas resolves an integer against a numeric index *by label*, so
this returns the values at every position whose key tuple is the
single-cell float label `i` — empty for an absent label (`KeyError` at the
caller), several values under duplicate labels (a sub-`Series`).  Key
tuples of other shapes (multi-column or non-numeric keys, where pandas
would fall back differently) are outside the scope of the theorems, which
all use one numeric key column. -/
def seriesGetInt (labels : List (List Cell)) (vals : List FloatV) (i : ℕ) :
    List FloatV :=
  ((labels.zip vals).filter
    (fun p => p.1 == [Cell.cfloat (.fin (i : ℚ))])).map (fun p => p.2)

/-- The pair of label lookups `col1[index]`, `col2[index]` in
`Compare.compare_numeric_columns`'s loop body.  An absent label raises
`KeyError` (`col1` is evaluated first); a duplicate label returns a
sub-`Series`, and `np.isnan(...) | np.isnan(...)` of an array is ambiguous
in the `elif`, raising `ValueError`. -/
def numLookup (labels : List (List Cell)) (c1 c2 : List FloatV) (i : ℕ) :
    Except PyError (FloatV × FloatV) :=
  match seriesGetInt labels c1 i, seriesGetInt labels c2 i with
  | [], _ => .error (.keyError "label not in index")
  | _, [] => .error (.keyError "label not in index")
  | [a], [b] => .ok (a, b)
  | _, _ => .error (.valueError
      "The truth value of an array is ambiguous")

/-- One iteration of `Compare.compare_numeric_columns`'s loop.  The
iteration index and the close mask (`if_num_diff`, a fresh `pd.Series`
over the `np.isclose` array) are positional, and so is the write into the
`diff` ndarray; a close position keeps the `np.nan` fill.  But at a
not-close position the loop body re-reads the *values* with the
label-based lookups `col1[index]`/`col2[index]` against the key index
(`numLookup`): a one-sided NaN *among the looked-up values* writes the
`DIFF.TRUE` sentinel, else their difference is written. -/
def numCellLoc (labels : List (List Cell)) (c1 c2 : List FloatV)
    (atol rtol : ℚ) (i : ℕ) : Except PyError DiffVal :=
  if iscloseEqNan atol rtol (c1.getD i .fnan) (c2.getD i .fnan) then
    .ok .noDiff
  else
    match numLookup labels c1 c2 i with
    | .error e => .error e
    | .ok (a, b) =>
      if isNanF a || isNanF b then .ok .diffTrue
      else
        match a, b with
        | .fin x, .fin y => .ok (.numDiff (x - y))
        | _, _ => .ok .diffTrue

/-- `Compare.compare_numeric_columns(col1, col2, atol, rtol)` on columns
carrying the merged key index `labels`:
`diff = np.full(col1.size, np.nan)`; if every element is close
(`equal_nan=True`) the loop is skipped and the fill is returned unchanged
(`if not all(if_num_diff)`), otherwise the loop runs `numCellLoc` at every
position 0 … n-1 and the first exception aborts the comparison. -/
def compare_numeric_columns (labels : List (List Cell))
    (col1 col2 : List FloatV) (atol rtol : ℚ) :
    Except PyError (List DiffVal) :=
  if (List.zipWith (iscloseEqNan atol rtol) col1 col2).all (fun b => b) then
    .ok (List.replicate col1.length .noDiff)
  else
    exceptSeq ((List.range col1.length).map
      (numCellLoc labels col1 col2 atol rtol))

/-- `Compare.compare_column(col1, col2, atol, rtol)` (the columns carry
the merged key index `labels`): `None` when the columns are already equal;
otherwise dispatch on dtype — both numeric (fallible: the numeric
comparator's label lookups may raise), both datetime, or `col1` of object
dtype (the source checks `col1` twice in its object condition, so `col2`'s
dtype is not consulted); any other pairing leaves `col_diff = None`. -/
def compare_column (labels : List (List Cell)) (k1 k2 : ColKind)
    (col1 col2 : List Cell) (atol rtol : ℚ) :
    Except PyError (Option (List DiffVal)) :=
  if colEquals k1 k2 col1 col2 then .ok none
  else if k1 == ColKind.knum && k2 == ColKind.knum then
    match compare_numeric_columns labels (col1.map toF) (col2.map toF)
        atol rtol with
    | .error e => .error e
    | .ok ds => .ok (some ds)
  else if k1 == ColKind.kdt && k2 == ColKind.kdt then
    .ok (some (compare_timeseries_column col1 col2))
  else if k1 == ColKind.kobj then
    .ok (some (compare_object_columns col1 col2 atol rtol))
  else .ok none

/-- `Compare.get_diff_row`: a diff cell is a difference iff it is non-null
(note a zero timedelta is non-null). -/
def isNotNull : DiffVal → Bool
  | .noDiff => false
  | _ => true

/-- The aligned left column `j` of the merged table. -/
def colAtL (rows : List MRow) (j : ℕ) : List Cell :=
  rows.map (fun m => m.lcells.getD j default)

/-- The aligned right column `j` of the merged table. -/
def colAtR (rows : List MRow) (j : ℕ) : List Cell :=
  rows.map (fun m => m.rcells.getD j default)

/-- The per-column results of `Compare.compare_column` over all common
columns; every column read from the (partition of the) merged table
carries its key index, and the first comparator exception aborts the
loop. -/
def allColDiffs (mcs : List MCol) (rows : List MRow) (atol rtol : ℚ) :
    Except PyError (List (Option (List DiffVal))) :=
  exceptSeq (mcs.enum.map (fun p =>
    compare_column (rows.map (fun m => m.key)) p.2.lkind p.2.rkind
      (colAtL rows p.1) (colAtR rows p.1) atol rtol))

/-- The diff cell of row `i`, column `j`: a `None` column keeps the
`np.nan` fill (`diff_df[diff_col] = np.nan`). -/
def dvalAt (cds : List (Option (List DiffVal))) (i j : ℕ) : DiffVal :=
  match cds.getD j none with
  | some ds => ds.getD i .noDiff
  | none => .noDiff

/-- Whether row `i` carries a difference in any column that produced a diff
series (`diff_rows.apply(any, axis=1)`; `None` columns cast no vote). -/
def voteAt (cds : List (Option (List DiffVal))) (i : ℕ) : Bool :=
  cds.any (fun o =>
    match o with
    | some ds => isNotNull (ds.getD i .noDiff)
    | none => false)

/-- One row of the diff table: key, presence marker, the original left and
right cells and the diff cells of the common columns. -/
structure DRow where
  key : List Cell
  pres : Pres
  lcells : List Cell
  rcells : List Cell
  dvals : List DiffVal
  deriving DecidableEq, Repr

/-- `diff_df.loc[labels]`: for each label in order, *all* rows carrying that
key (label-based selection duplicates rows under duplicate labels). -/
def locSelect (labels : List (List Cell)) (rws : List DRow) : List DRow :=
  (labels.map (fun k => rws.filter (fun dr => dr.key == k))).flatten

/-- `Compare.multiprocess_compare(df)` on one (partition of the) merged
table: per-column diffs (a comparator exception propagates), then with
`keep_only_diff_rows` the label-based restriction to `rows_with_diff`. -/
def multiprocess_compare (mcs : List MCol) (rows : List MRow)
    (atol rtol : ℚ) (keepRows : Bool) : Except PyError (List DRow) :=
  match allColDiffs mcs rows atol rtol with
  | .error e => .error e
  | .ok cds =>
    if keepRows then
      .ok (locSelect
        (maskFilter
          ((List.range rows.length).map (voteAt cds))
          (rows.map (fun m => m.key)))
        (rows.enum.map (fun p =>
          { key := p.2.key, pres := p.2.pres, lcells := p.2.lcells,
            rcells := p.2.rcells,
            dvals := (List.range mcs.length).map (dvalAt cds p.1) : DRow })))
    else
      .ok (rows.enum.map (fun p =>
        { key := p.2.key, pres := p.2.pres, lcells := p.2.lcells,
          rcells := p.2.rcells,
          dvals := (List.range mcs.length).map (dvalAt cds p.1) : DRow }))

/-- The partition sizes `np.array_split` uses: `l % n` parts of size
`l / n + 1` followed by parts of size `l / n`. -/
def npSizes (n l : ℕ) : List ℕ :=
  (List.range n).map (fun i => if i < l % n then l / n + 1 else l / n)

/-- Split a list into consecutive chunks of the given sizes. -/
def splitSizes {α : Type} : List ℕ → List α → List (List α)
  | [], _ => []
  | s :: ss, xs => xs.take s :: splitSizes ss (xs.drop s)

/-- `np.array_split(xs, n)`. -/
def arraySplit {α : Type} (n : ℕ) (xs : List α) : List (List α) :=
  splitSizes (npSizes n xs.length) xs

/-- The `pool_size > 1` path of `Compare._compare`: map
`multiprocess_compare` over the row partitions (each partition keeps its
slice of the key index, while the per-partition close mask restarts at
position 0) and append the partial results in partition order; a worker's
exception is re-raised when `ThreadPool.map` collects the results. -/
def parallelCompare (n : ℕ) (mcs : List MCol) (rows : List MRow)
    (atol rtol : ℚ) (keepRows : Bool) : Except PyError (List DRow) :=
  match exceptSeq ((arraySplit n rows).map
      (fun part => multiprocess_compare mcs part atol rtol keepRows)) with
  | .error e => .error e
  | .ok parts => .ok parts.flatten

/-- The diff result table: retained common columns, diff rows, and the two
constant missing-column marker columns (`'_right_missing_columns'` holds the
joined names of left-only columns, and symmetrically). -/
structure DiffTable where
  colNames : List String
  rows : List DRow
  missingFromRight : Option String
  missingFromLeft : Option String
  deriving DecidableEq, Repr

/-- `Compare.drop_non_diff_columns`: drop the left/right/diff column triple
of every common column whose diff column has no non-null entry. -/
def drop_non_diff_columns (t : DiffTable) : DiffTable :=
  let mask := (List.range t.colNames.length).map (fun j =>
    t.rows.any (fun dr => isNotNull (dr.dvals.getD j .noDiff)))
  { t with colNames := maskFilter mask t.colNames,
           rows := t.rows.map (fun dr =>
             { dr with lcells := maskFilter mask dr.lcells,
                       rcells := maskFilter mask dr.rcells,
                       dvals := maskFilter mask dr.dvals }) }

/-- Is a cell non-null (`notna`)? -/
def notnaCell : Cell → Bool
  | .cfloat .fnan => false
  | .cnat => false
  | _ => true

/-- `Compare.prepare_metadata`: non-null counts per diff-table column
(`df.count()`), with the `rows_present` entry dropped.  The default
suffixes `'_left'`, `'_right'`, `'_diff'` are fixed in the model. -/
def prepare_metadata (t : DiffTable) : List (String × ℕ) :=
  (t.colNames.enum.map (fun p =>
    [(p.2 ++ "_left",
        (t.rows.filter (fun dr => notnaCell (dr.lcells.getD p.1 default))).length),
     (p.2 ++ "_right",
        (t.rows.filter (fun dr => notnaCell (dr.rcells.getD p.1 default))).length),
     (p.2 ++ "_diff",
        (t.rows.filter (fun dr => isNotNull (dr.dvals.getD p.1 .noDiff))).length)])).flatten
  ++ (match t.missingFromRight with
      | some _ => [("_right_missing_columns", t.rows.length)]
      | none => [])
  ++ (match t.missingFromLeft with
      | some _ => [("_left_missing_columns", t.rows.length)]
      | none => [])

/-! ## The constructor pipeline: `Compare.__init__` and `Compare._compare` -/

/-- The columns of `l` absent from `r` (`Compare.left_unq_columns` /
`right_unq_columns`, a Python set modelled in first-occurrence order). -/
def unqCols (l r : DataFrame) : List String :=
  (l.cols.filter (fun c => !r.cols.contains c)).dedup

/-- `', '.join(names)` of a set of column names, or `none` when the set is
empty (falsy) and no marker column is added. -/
def joinNames (cs : List String) : Option String :=
  if cs.isEmpty then none else some (String.intercalate ", " cs)

/-- The result of a completed comparison: `Compare.diff` (`none` models
`self.diff = None` from the whole-table-equality short circuit) and
`Compare.metadata`. -/
structure Outcome where
  diff : Option DiffTable
  metadata : List (String × ℕ)
  deriving DecidableEq, Repr

/-- The tail of `Compare._compare` after duplicate handling: merge, the
single-threaded or pooled diff computation, column dropping and metadata.
With `ks = []` the merge method's `if self.key_columns:` is falsy, it
returns `None`, and `multiprocess_compare` crashes reading `df.loc`
(`AttributeError`).  `finalL`/`finalR` are the post-call states of the
caller's two frames, threaded through for the mutation claims. -/
def runCompare (ldf rdf : DataFrame) (ks : List String) (atol rtol : ℚ)
    (keepRows : Bool) (poolSz : ℕ) (finalL finalR : PyObj) :
    Except PyError Outcome × PyObj × PyObj :=
  if ks.isEmpty then
    (.error (.attributeError "NoneType object has no attribute loc"),
      finalL, finalR)
  else
    let M := mergeDF ldf rdf ks
    match (if poolSz == 1 then
        multiprocess_compare M.mcols M.mrows atol rtol keepRows
      else
        parallelCompare poolSz M.mcols M.mrows atol rtol keepRows) with
    | .error e => (.error e, finalL, finalR)
    | .ok drows =>
      let t := drop_non_diff_columns
        { colNames := M.mcols.map (fun mc => mc.name), rows := drows,
          missingFromRight := joinNames (unqCols ldf rdf),
          missingFromLeft := joinNames (unqCols rdf ldf) }
      (.ok { diff := some t, metadata := prepare_metadata t }, finalL,
        finalR)

/-- `Compare._compare` (with the `__init__` attribute state threaded in):
whole-table-equality short circuit (`self.diff = None`), then duplicate-key
handling (each handler result is re-validated by the `left`/`right` property
setters, with the caller's frames already mutated where the handler mutates),
then the merge-and-diff tail.  `kattr = none` (the `on_index` path) cannot
reach this point through a successful validation; the dead branch re-raises
the `AttributeError` for totality. -/
def comparePhase (left right : PyObj) (ldf rdf : DataFrame)
    (kattr : Option (List String)) (atol rtol : ℚ) (policy : String)
    (keepRows : Bool) (poolSz : ℕ) :
    Except PyError Outcome × PyObj × PyObj :=
  if dfEquals ldf rdf then
    (.ok { diff := none, metadata := [] }, left, right)
  else
    match kattr with
    | none => (.error (.attributeError
        "Compare object has no attribute key_columns"), left, right)
    | some ks =>
      if check_duplicate_keys ks ldf rdf then
        match handle_duplicate_keys policy ks ldf with
        | (ldf1, ks1, lret) =>
          match validate_dataframe (some ks1) lret "left" with
          | .error e => (.error e, .pdf ldf1, right)
          | .ok ldf2 =>
            match handle_duplicate_keys policy ks1 rdf with
            | (rdf1, ks2, rret) =>
              match validate_dataframe (some ks2) rret "right" with
              | .error e => (.error e, .pdf ldf1, .pdf rdf1)
              | .ok rdf2 =>
                runCompare ldf2 rdf2 ks2 atol rtol keepRows poolSz
                  (.pdf ldf1) (.pdf rdf1)
      else runCompare ldf rdf ks atol rtol keepRows poolSz left right

/-- The validation prefix of `Compare.__init__`: the key-column/`on_index`
resolution (the `on_index` branch never sets the `key_columns` attribute,
and it wins even when key columns are also given), the duplicate-key policy
check, and the two property-setter validations.  Returns the two validated
frames and the `key_columns` attribute state. -/
def initValidate (left right : PyObj) (on_index : Bool)
    (kc : Option (List String)) (policy : String) :
    Except PyError (DataFrame × DataFrame × Option (List String)) :=
  if kc.isNone && !on_index then
    .error (.exception "Provide key_columns, or set on_index = True")
  else
    if !(IF_DUPLICATE_KEY_METHODS.contains policy) then
      .error (.valueError (policy ++ " not a valid strategy"))
    else
      match validate_dataframe (if on_index then none else kc) left "left" with
      | .error e => .error e
      | .ok ldf =>
        match validate_dataframe (if on_index then none else kc) right "right" with
        | .error e => .error e
        | .ok rdf => .ok (ldf, rdf, if on_index then none else kc)

/-- `Compare(left, right, on_index, key_columns, atol, rtol,
if_duplicate_keys, keep_only_diff_rows, pool_size)`: the whole constructor.
A string or tuple `key_columns` argument is normalised to a list by the
source, so the argument is modelled as `Option (List String)` directly.
`cpuCount` models `multiprocessing.cpu_count()`, used when `pool_size` is
not a positive int.  The returned pair after the result is the post-call
state of the caller's `left` and `right` arguments. -/
def initCompare (left right : PyObj) (on_index : Bool)
    (kc : Option (List String)) (atol rtol : ℚ) (policy : String)
    (keepRows : Bool) (pool_size cpuCount : ℕ) :
    Except PyError Outcome × PyObj × PyObj :=
  match initValidate left right on_index kc policy with
  | .error e => (.error e, left, right)
  | .ok (ldf, rdf, kattr) =>
    comparePhase left right ldf rdf kattr atol rtol policy keepRows
      (if pool_size > 0 then pool_size else cpuCount)

/-! ## Predicates naming the validation failure conditions -/

/-- The input is not a pandas DataFrame. -/
def pyNotDF : PyObj → Bool
  | .pdf _ => false
  | _ => true

/-- The input is a DataFrame and it is empty. -/
def pyEmpty : PyObj → Bool
  | .pdf df => dfEmpty df
  | _ => false

/-- The input is a DataFrame lacking one of the key columns. -/
def pyLacksKeys (ks : List String) : PyObj → Bool
  | .pdf df => !(ks.all (fun c => df.cols.contains c))
  | _ => false

/-! ## Concrete example frames used by witnesses and counterexamples -/

/-- Shorthand for a finite numeric cell. -/
def fq (q : ℚ) : Cell := .cfloat (.fin q)

/-- A left table with a duplicated key tuple (`k = 1` twice) under the
default integer index `0, 1`. -/
def exL9 : DataFrame :=
  ⟨["k", "v"], [.knum, .knum], [0, 1], [[fq 1, fq 10], [fq 1, fq 20]]⟩

/-- A right table with the same duplicated key. -/
def exR9 : DataFrame :=
  ⟨["k", "v"], [.knum, .knum], [0, 1], [[fq 1, fq 10], [fq 1, fq 99]]⟩

/-- A single-row right table with key `k = 1`. -/
def exR3 : DataFrame :=
  ⟨["k", "v"], [.knum, .knum], [0], [[fq 1, fq 10]]⟩

/-- A one-row left table, keys unique. -/
def exL5 : DataFrame :=
  ⟨["k", "v"], [.knum, .knum], [0], [[fq 1, fq 10]]⟩

/-- A one-row right table differing from `exL5` in `v`, keys unique. -/
def exR5 : DataFrame :=
  ⟨["k", "v"], [.knum, .knum], [0], [[fq 1, fq 11]]⟩

/-- A right table whose extra key `k = 2` carries a null in the only
common non-key column `v`. -/
def exR7 : DataFrame :=
  ⟨["k", "v"], [.knum, .knum], [0, 1],
    [[fq 1, fq 10], [fq 2, .cfloat .fnan]]⟩

/-- A right table whose extra key `k = 2` carries a finite value in the
only common non-key column `v`. -/
def exR7b : DataFrame :=
  ⟨["k", "v"], [.knum, .knum], [0, 1], [[fq 1, fq 10], [fq 2, fq 5]]⟩

/-- A two-row left table whose key values `0, 1` coincide with the merged
table's positions, so the comparator's label lookups hit the intended
rows. -/
def exL5b : DataFrame :=
  ⟨["k", "v"], [.knum, .knum], [0, 1], [[fq 0, fq 10], [fq 1, fq 20]]⟩

/-- A right table differing from `exL5b` in `v` at key `1`. -/
def exR5b : DataFrame :=
  ⟨["k", "v"], [.knum, .knum], [0, 1], [[fq 0, fq 10], [fq 1, fq 21]]⟩

/-- A two-row left table with unique keys `1, 2`. -/
def exL9u : DataFrame :=
  ⟨["k", "v"], [.knum, .knum], [0, 1], [[fq 1, fq 10], [fq 2, fq 20]]⟩

/-- A right table differing from `exL9u` in `v` at key `2` only. -/
def exR9u : DataFrame :=
  ⟨["k", "v"], [.knum, .knum], [0, 1], [[fq 1, fq 10], [fq 2, fq 21]]⟩

/-! # Theorems -/

/-- C1 (code bug): the loop of `compare_numeric_columns` combines a
positional close mask with label-based value lookups against the columns'
key index.  On columns carrying the merged key index `[1], [2]` with a
one-sided null at position 1 (left `NaN`, right `5`), the claim requires
the `DIFF.TRUE` sentinel there; the source instead looks up label `1` —
key `1`'s values `(10, 10)` — and writes the numeric difference `0`,
never the sentinel.  And on a single-row column pair with key label `1`
and a not-close value pair, the lookup of label `0` raises `KeyError`
instead of producing any diff cell at all. -/
theorem claim_C1 :
    compare_numeric_columns [[fq 1], [fq 2]] [.fin 10, .fnan]
        [.fin 10, .fin 5] 0 0 = .ok [.noDiff, .numDiff 0] ∧
    (compare_numeric_columns [[fq 1], [fq 2]] [.fin 10, .fnan]
        [.fin 10, .fin 5] 0 0).toOption.map (fun ds => ds.getD 1 .noDiff) ≠
      some .diffTrue ∧
    compare_numeric_columns [[fq 1]] [.fin 10] [.fnan] 0 0 =
      .error (.keyError "label not in index") :=
  ⟨by with_unfolding_all rfl, by with_unfolding_all decide,
    by with_unfolding_all rfl⟩

/-- Mapping over a zip is the corresponding `zipWith`. -/
theorem map_zip_eq_zipWith {α β γ : Type} (f : α × β → γ) :
    ∀ (as : List α) (bs : List β),
      (as.zip bs).map f = List.zipWith (fun a b => f (a, b)) as bs
  | [], _ => by simp
  | _ :: _, [] => by simp
  | a :: as, b :: bs => by
    simp only [List.zip_cons_cons, List.map_cons, List.zipWith_cons_cons]
    rw [map_zip_eq_zipWith f as bs]

/-- `compare_object_columns` is the element-wise `objCell` map on
equal-length columns. -/
theorem compare_object_columns_pointwise (col1 col2 : List Cell)
    (atol rtol : ℚ) (hlen : col1.length = col2.length) :
    compare_object_columns col1 col2 atol rtol =
      List.zipWith (objCell atol rtol) col1 col2 := by
  unfold compare_object_columns
  rw [hlen, Nat.min_self, Nat.sub_self, List.replicate_zero, List.append_nil,
    map_zip_eq_zipWith]

/-- C8: for equal-length object columns and every row index, the object
comparator returns a null diff when the two values are equal by Python
equality; when they are unequal and both coerce to (finite) numbers via
`float(...)`, the numeric difference subject to the tolerance; and the
`DIFF.TRUE` sentinel when they are unequal and numeric coercion raises
`ValueError` on either side.  In particular `"Hi"` vs `"Hi"` yields no
diff and `"abc"` vs `"ABC"` yields the sentinel. -/
theorem claim_C8 (col1 col2 : List Cell) (atol rtol : ℚ) (i : ℕ)
    (hlen : col1.length = col2.length) :
    (∀ a b : Cell, col1[i]? = some a → col2[i]? = some b →
      pyEq a b = true →
      (compare_object_columns col1 col2 atol rtol)[i]? = some .noDiff) ∧
    (∀ (a b : Cell) (x y : ℚ), col1[i]? = some a → col2[i]? = some b →
      pyEq a b = false →
      toFloatCell a = some (.fin x) → toFloatCell b = some (.fin y) →
      (compare_object_columns col1 col2 atol rtol)[i]? =
        some (if |x - y| ≤ atol + rtol * |y| then .noDiff
              else .numDiff (x - y))) ∧
    (∀ a b : Cell, col1[i]? = some a → col2[i]? = some b →
      pyEq a b = false →
      (toFloatCell a = none ∨ toFloatCell b = none) →
      (compare_object_columns col1 col2 atol rtol)[i]? = some .diffTrue) ∧
    compare_object_columns [.cstr "Hi" none] [.cstr "Hi" none] atol rtol =
      [.noDiff] ∧
    compare_object_columns [.cstr "abc" none] [.cstr "ABC" none] atol rtol =
      [.diffTrue] := by
  refine ⟨?_, ?_, ?_, ?_, ?_⟩
  · intro a b h1 h2 hpy
    rw [compare_object_columns_pointwise col1 col2 atol rtol hlen,
      List.getElem?_zipWith, h1, h2]
    simp [objCell, hpy]
  · intro a b x y h1 h2 hpy hta htb
    rw [compare_object_columns_pointwise col1 col2 atol rtol hlen,
      List.getElem?_zipWith, h1, h2]
    simp only [objCell, hpy, Bool.false_eq_true, if_false, hta, htb]
    simp only [isNanF, Bool.and_self, Bool.false_and, Bool.and_false,
      iscloseF, fsub]
    split <;> simp_all
  · intro a b h1 h2 hpy hcoerce
    rw [compare_object_columns_pointwise col1 col2 atol rtol hlen,
      List.getElem?_zipWith, h1, h2]
    rcases hcoerce with hta | htb
    · simp [objCell, hpy, hta]
    · cases hta' : toFloatCell a <;> simp [objCell, hpy, hta', htb]
  · unfold compare_object_columns
    simp [objCell, pyEq]
  · unfold compare_object_columns
    simp [objCell, pyEq, toFloatCell]

/-- Witness for C8 at concrete inputs: the numeric-coercion path on
`"1"` vs `"2"` yields `-1`, and the coercion-failure path on `"abc"` vs
`"1"` yields the sentinel. -/
theorem claim_C8_witness :
    (compare_object_columns [.cstr "1" (some (.fin 1))]
      [.cstr "2" (some (.fin 2))] 0 0)[0]? = some (.numDiff (-1)) ∧
    (compare_object_columns [.cstr "abc" none]
      [.cstr "1" (some (.fin 1))] 0 0)[0]? = some .diffTrue := by
  constructor
  · have h := (claim_C8 [.cstr "1" (some (.fin 1))]
      [.cstr "2" (some (.fin 2))] 0 0 0 rfl).2.1
      (.cstr "1" (some (.fin 1))) (.cstr "2" (some (.fin 2))) 1 2
      rfl rfl (by decide) rfl rfl
    norm_num at h
    exact h
  · exact (claim_C8 [.cstr "abc" none] [.cstr "1" (some (.fin 1))]
      0 0 0 rfl).2.2.1
      (.cstr "abc" none) (.cstr "1" (some (.fin 1)))
      rfl rfl (by decide) (Or.inl rfl)

/-- C3 (code bug): the `'drop'` duplicate-key policy does not make only
the first occurrence of a duplicated key participate.  The code detects
duplicates on the key columns but drops by *index label*
(`df.index.duplicated`), which under the default integer index is a
no-op: on a left table carrying key `k = 1` twice (values 10 and 20)
against a right table with a single `k = 1` row, duplicates are detected,
the handler drops nothing, and both occurrences enter the merge.  The
comparison then crashes: at the second merged row's not-close position the
loop's label lookup `col1[1]` hits the duplicated key label and returns a
sub-`Series`, so the `elif np.isnan(...) | np.isnan(...)` test raises
`ValueError` — instead of the claim's first-occurrence-only diff. -/
theorem claim_C3 :
    check_duplicate_keys ["k"] exL9 exR3 = true ∧
    handle_duplicate_keys "drop" ["k"] exL9 = (exL9, ["k"], .pdf exL9) ∧
    (initCompare (.pdf exL9) (.pdf exR3) false (some ["k"]) 0 0 "drop"
        true 1 1).1 =
      .error (.valueError "The truth value of an array is ambiguous") := by
  refine ⟨rfl, rfl, by with_unfolding_all rfl⟩

/-- The `on_index` constructor branch always fails validation: the
`key_columns` attribute is never set, and `_validate_dataframe` reads it. -/
theorem initValidate_onIndex_err (left right : PyObj) (policy : String) :
    ∃ e, initValidate left right true none policy = .error e := by
  unfold initValidate
  simp only [Option.isNone_none, Bool.not_true, Bool.and_false,
    Bool.false_eq_true, if_false, if_true]
  split
  · exact ⟨_, rfl⟩
  · cases left with
    | pdf df =>
      unfold validate_dataframe
      by_cases h : dfEmpty df <;> simp [h]
    | pyNone => exact ⟨_, rfl⟩
    | other => exact ⟨_, rfl⟩

/-- C10: constructing `Compare` with `on_index = True` and no key columns
always raises before producing any result: the constructor's `on_index`
branch never sets the `key_columns` attribute, and validating the left
table immediately reads it, so index-based comparison never reaches the
comparison phase. -/
theorem claim_C10 (left right : PyObj) (atol rtol : ℚ) (policy : String)
    (keep : Bool) (pool cpu : ℕ) :
    ∃ e, (initCompare left right true none atol rtol policy keep
      pool cpu).1 = .error e := by
  obtain ⟨e, he⟩ := initValidate_onIndex_err left right policy
  refine ⟨e, ?_⟩
  unfold initCompare
  rw [he]

/-- `_validate_dataframe` (with key columns set) fails exactly on a
non-DataFrame, an empty table, or missing key columns. -/
theorem validate_err_iff (ks : List String) (p : PyObj) (nm : String) :
    (∃ e, validate_dataframe (some ks) p nm = .error e) ↔
      (pyNotDF p = true ∨ pyEmpty p = true ∨ pyLacksKeys ks p = true) := by
  cases p with
  | pdf df =>
    simp only [validate_dataframe]
    by_cases he : dfEmpty df = true
    · rw [if_pos he]
      simp [pyNotDF, pyEmpty, he]
    · rw [if_neg he]
      by_cases hk : (ks.all fun c => df.cols.contains c) = true
      · rw [if_pos hk]
        have hk' : ∀ x ∈ ks, x ∈ df.cols := by simpa using hk
        simp [pyNotDF, pyEmpty, pyLacksKeys, he]
        exact hk'
      · rw [if_neg hk]
        have hk' : ¬ ∀ x ∈ ks, x ∈ df.cols := by simpa using hk
        push_neg at hk'
        simp [pyNotDF, pyEmpty, pyLacksKeys, he, hk']
  | pyNone => simp [validate_dataframe, pyNotDF]
  | other => simp [validate_dataframe, pyNotDF]

/-- A successful validation passes the frame through. -/
theorem validate_ok_shape {kc : Option (List String)} {p : PyObj}
    {nm : String} {df : DataFrame}
    (h : validate_dataframe kc p nm = .ok df) : p = .pdf df := by
  cases p with
  | pdf df0 =>
    simp only [validate_dataframe] at h
    by_cases he : dfEmpty df0 = true
    · rw [if_pos he] at h
      exact absurd h (by simp)
    · rw [if_neg he] at h
      cases kc with
      | none => exact absurd h (by simp)
      | some ks =>
        dsimp only at h
        by_cases hk : (ks.all fun c => df0.cols.contains c) = true
        · rw [if_pos hk] at h
          simp only [Except.ok.injEq] at h
          rw [h]
        · rw [if_neg hk] at h
          exact absurd h (by simp)
  | pyNone => simp [validate_dataframe] at h
  | other => simp [validate_dataframe] at h

/-- A valid frame validates to itself. -/
theorem validate_ok (ks : List String) (df : DataFrame) (nm : String)
    (hne : dfEmpty df = false)
    (hks : ks.all (fun c => df.cols.contains c) = true) :
    validate_dataframe (some ks) (.pdf df) nm = .ok df := by
  simp only [validate_dataframe]
  rw [if_neg (by simp [hne]), if_pos hks]

/-- C4: with key columns supplied, construction fails during validation
exactly when an input is not a DataFrame, an input table is empty, a table
lacks a key column, or the duplicate-key policy is unknown — and any such
validation error aborts the whole constructor immediately, producing the
error with no diff outcome and both caller frames untouched. -/
theorem claim_C4 (left right : PyObj) (ks : List String) (policy : String) :
    ((∃ e, initValidate left right false (some ks) policy = .error e) ↔
      (pyNotDF left = true ∨ pyEmpty left = true ∨
        pyLacksKeys ks left = true ∨ pyNotDF right = true ∨
        pyEmpty right = true ∨ pyLacksKeys ks right = true ∨
        policy ∉ IF_DUPLICATE_KEY_METHODS)) ∧
    (∀ e, initValidate left right false (some ks) policy = .error e →
      ∀ (atol rtol : ℚ) (keep : Bool) (pool cpu : ℕ),
        initCompare left right false (some ks) atol rtol policy keep
          pool cpu = (.error e, left, right)) := by
  constructor
  · constructor
    · rintro ⟨e, he⟩
      unfold initValidate at he
      simp only [Option.isNone_some, Bool.false_and, Bool.false_eq_true,
        if_false] at he
      by_cases hp : policy ∈ IF_DUPLICATE_KEY_METHODS
      · rw [if_neg (by simp [hp])] at he
        cases hvl : validate_dataframe (some ks) left "left" with
        | error e1 =>
          have h1 := (validate_err_iff ks left "left").mp ⟨e1, hvl⟩
          tauto
        | ok ldf =>
          rw [hvl] at he
          cases hvr : validate_dataframe (some ks) right "right" with
          | error e2 =>
            have h2 := (validate_err_iff ks right "right").mp ⟨e2, hvr⟩
            tauto
          | ok rdf =>
            rw [hvr] at he
            exact absurd he (by simp)
      · tauto
    · intro h
      unfold initValidate
      simp only [Option.isNone_some, Bool.false_and, Bool.false_eq_true,
        if_false]
      by_cases hp : policy ∈ IF_DUPLICATE_KEY_METHODS
      · rw [if_neg (by simp [hp])]
        by_cases hl : pyNotDF left = true ∨ pyEmpty left = true ∨
            pyLacksKeys ks left = true
        · obtain ⟨e1, he1⟩ := (validate_err_iff ks left "left").mpr hl
          rw [he1]
          exact ⟨e1, rfl⟩
        · cases hvl : validate_dataframe (some ks) left "left" with
          | error e1 => exact ⟨e1, rfl⟩
          | ok ldf =>
            have hr : pyNotDF right = true ∨ pyEmpty right = true ∨
                pyLacksKeys ks right = true := by
              rcases h with h|h|h|h|h|h|h
              · exact absurd (Or.inl h) hl
              · exact absurd (Or.inr (Or.inl h)) hl
              · exact absurd (Or.inr (Or.inr h)) hl
              · exact Or.inl h
              · exact Or.inr (Or.inl h)
              · exact Or.inr (Or.inr h)
              · exact absurd hp h
            obtain ⟨e2, he2⟩ := (validate_err_iff ks right "right").mpr hr
            rw [he2]
            exact ⟨e2, rfl⟩
      · rw [if_pos (by simp [hp])]
        exact ⟨_, rfl⟩
  · intro e he atol rtol keep pool cpu
    unfold initCompare
    rw [he]

/-- Witness for C4 at a concrete input: a `None` left input makes the
constructor abort with an error and no result. -/
theorem claim_C4_witness :
    ∃ e, initCompare .pyNone (.pdf exR5) false (some ["k"]) 0 0 "drop"
      true 1 1 = (.error e, .pyNone, .pdf exR5) := by
  obtain ⟨e, he⟩ := (claim_C4 .pyNone (.pdf exR5) ["k"] "drop").1.mpr
    (Or.inl rfl)
  exact ⟨e, (claim_C4 .pyNone (.pdf exR5) ["k"] "drop").2 e he 0 0 true 1 1⟩

/-- `nanEq` is reflexive (pandas `equals` treats NaN as equal to itself). -/
theorem nanEq_refl (c : Cell) : nanEq c c = true := by
  cases c with
  | cfloat v => cases v <;> simp [nanEq]
  | cstr s fl => simp [nanEq]
  | cdt t => simp [nanEq]
  | cnat => rfl

/-- Zipping a list with itself under a reflexive test passes `all`. -/
theorem all_zipWith_self {α : Type} (f : α → α → Bool)
    (h : ∀ x, f x x = true) :
    ∀ l : List α, (List.zipWith f l l).all (fun b => b) = true
  | [] => rfl
  | x :: xs => by
    simp only [List.zipWith_cons_cons, List.all_cons, h x, Bool.true_and]
    exact all_zipWith_self f h xs

/-- `rowNanEq` is reflexive. -/
theorem rowNanEq_refl (r : List Cell) : rowNanEq r r = true := by
  unfold rowNanEq
  rw [all_zipWith_self nanEq nanEq_refl r]
  simp

/-- `DataFrame.equals` holds between a frame and itself. -/
theorem dfEquals_self (df : DataFrame) : dfEquals df df = true := by
  unfold dfEquals
  rw [all_zipWith_self rowNanEq rowNanEq_refl df.rows]
  simp

/-- C2: comparing a valid table against itself takes the whole-table
equality short circuit: construction succeeds, `diff` is `None`, the
metadata stays empty, and the caller's frames are untouched. -/
theorem claim_C2 (L : DataFrame) (ks : List String) (atol rtol : ℚ)
    (keep : Bool) (pool cpu : ℕ)
    (hne : dfEmpty L = false)
    (hks : ks.all (fun c => L.cols.contains c) = true) :
    initCompare (.pdf L) (.pdf L) false (some ks) atol rtol "drop" keep
      pool cpu = (.ok { diff := none, metadata := [] }, .pdf L, .pdf L) := by
  unfold initCompare
  rw [show initValidate (.pdf L) (.pdf L) false (some ks) "drop" =
      .ok (L, L, some ks) by
    unfold initValidate
    simp only [Option.isNone_some, Bool.false_and, Bool.false_eq_true,
      if_false]
    rw [if_neg (by simp [IF_DUPLICATE_KEY_METHODS]),
      validate_ok ks L "left" hne hks, validate_ok ks L "right" hne hks]]
  unfold comparePhase
  dsimp only
  rw [if_pos (dfEquals_self L)]

/-- Witness for C2 at a concrete table. -/
theorem claim_C2_witness :
    initCompare (.pdf exL5) (.pdf exL5) false (some ["k"]) 0 0 "drop" true
      1 1 = (.ok { diff := none, metadata := [] }, .pdf exL5, .pdf exL5) :=
  claim_C2 exL5 ["k"] 0 0 true 1 1 rfl rfl

/-- `initValidate` succeeds on two valid frames with key columns. -/
theorem initValidate_ok_of_valid (L R : DataFrame) (ks : List String)
    (policy : String) (hpol : policy ∈ IF_DUPLICATE_KEY_METHODS)
    (hlne : dfEmpty L = false)
    (hlks : ks.all (fun c => L.cols.contains c) = true)
    (hrne : dfEmpty R = false)
    (hrks : ks.all (fun c => R.cols.contains c) = true) :
    initValidate (.pdf L) (.pdf R) false (some ks) policy =
      .ok (L, R, some ks) := by
  unfold initValidate
  simp only [Option.isNone_some, Bool.false_and, Bool.false_eq_true,
    if_false]
  rw [if_neg (by simp [hpol]), validate_ok ks L "left" hlne hlks,
    validate_ok ks R "right" hrne hrks]

/-- C5 (amended): selecting the `'aggregate'` policy does *not* raise at
selection time — the policy passes the constructor's policy check, and its
handler body is `pass`.  An error surfaces only when duplicate keys are
present on tables that are not whole-table equal: the handler then returns
`None` and re-assigning it to `self.left` fails validation with a
`TypeError`; with no duplicate keys the comparison proceeds without error. -/
theorem claim_C5 (L R : DataFrame) (ks : List String) (atol rtol : ℚ)
    (keep : Bool) (pool cpu : ℕ)
    (hlne : dfEmpty L = false)
    (hlks : ks.all (fun c => L.cols.contains c) = true)
    (hrne : dfEmpty R = false)
    (hrks : ks.all (fun c => R.cols.contains c) = true)
    (hneq : dfEquals L R = false)
    (hdup : check_duplicate_keys ks L R = true) :
    (initCompare (.pdf L) (.pdf R) false (some ks) atol rtol "aggregate"
      keep pool cpu).1 =
      .error (.typeError "left must be a pandas DataFrame") := by
  unfold initCompare
  rw [initValidate_ok_of_valid L R ks "aggregate" (by simp
    [IF_DUPLICATE_KEY_METHODS]) hlne hlks hrne hrks]
  unfold comparePhase
  dsimp only
  rw [if_neg (by simp [hneq]), if_pos hdup,
    show handle_duplicate_keys "aggregate" ks L = (L, ks, .pyNone) from rfl]
  dsimp only
  rw [show validate_dataframe (some ks) PyObj.pyNone "left" =
    .error (.typeError "left must be a pandas DataFrame") from rfl]

/-- Counterexample to C5 as stated: with no duplicate keys and differing
valid tables (whose key values coincide with the merged positions, so the
comparator's label lookups succeed), selecting `'aggregate'` raises no
error at all — the comparison completes and produces a diff result. -/
theorem claim_C5_cex :
    (initCompare (.pdf exL5b) (.pdf exR5b) false (some ["k"]) 0 0
        "aggregate" true 1 1).1 =
      .ok { diff := some
              { colNames := ["v"],
                rows := [⟨[fq 1], .both, [fq 20], [fq 21], [.numDiff (-1)]⟩],
                missingFromRight := none, missingFromLeft := none },
            metadata := [("v_left", 1), ("v_right", 1), ("v_diff", 1)] } := by
  with_unfolding_all rfl

/-- Witness for the amended C5 at a concrete duplicate-key input. -/
theorem claim_C5_witness :
    (initCompare (.pdf exL9) (.pdf exR9) false (some ["k"]) 0 0 "aggregate"
      true 1 1).1 =
      .error (.typeError "left must be a pandas DataFrame") :=
  claim_C5 exL9 exR9 ["k"] 0 0 true 1 1 rfl rfl rfl rfl
    (by with_unfolding_all rfl) rfl

/-- The merge-and-diff tail never touches the caller's frames beyond the
states threaded into it. -/
theorem runCompare_frames (ldf rdf : DataFrame) (ks : List String)
    (atol rtol : ℚ) (keep : Bool) (poolSz : ℕ) (fl fr : PyObj) :
    (runCompare ldf rdf ks atol rtol keep poolSz fl fr).2 = (fl, fr) := by
  unfold runCompare
  split
  · rfl
  · dsimp only
    split <;> rfl

/-- C6 (amended): under the `'drop'` and `'aggregate'` duplicate-key
policies the constructor never mutates the caller-supplied frames — after
construction (successful or not) both arguments are exactly as passed.
(Under `'sort'` with duplicate keys present the caller's frame is mutated
in place; see the counterexample.) -/
theorem claim_C6 (left right : PyObj) (on_index : Bool)
    (kc : Option (List String)) (atol rtol : ℚ) (policy : String)
    (keep : Bool) (pool cpu : ℕ)
    (hpol : policy = "drop" ∨ policy = "aggregate") :
    (initCompare left right on_index kc atol rtol policy keep pool cpu).2 =
      (left, right) := by
  unfold initCompare
  cases hv : initValidate left right on_index kc policy with
  | error e => rfl
  | ok trip =>
    obtain ⟨ldf, rdf, kattr⟩ := trip
    have hshape : left = .pdf ldf ∧ right = .pdf rdf := by
      unfold initValidate at hv
      by_cases h1 : (kc.isNone && !on_index) = true
      · rw [if_pos h1] at hv
        exact absurd hv (by simp)
      · rw [if_neg h1] at hv
        by_cases h2 : (!IF_DUPLICATE_KEY_METHODS.contains policy) = true
        · rw [if_pos h2] at hv
          exact absurd hv (by simp)
        · rw [if_neg h2] at hv
          cases hvl : validate_dataframe (if on_index then none else kc)
              left "left" with
          | error e =>
            rw [hvl] at hv
            exact absurd hv (by simp)
          | ok l0 =>
            rw [hvl] at hv
            cases hvr : validate_dataframe (if on_index then none else kc)
                right "right" with
            | error e =>
              rw [hvr] at hv
              exact absurd hv (by simp)
            | ok r0 =>
              rw [hvr] at hv
              simp only [Except.ok.injEq, Prod.mk.injEq] at hv
              obtain ⟨hl0, hr0, -⟩ := hv
              subst hl0
              subst hr0
              exact ⟨validate_ok_shape hvl, validate_ok_shape hvr⟩
    obtain ⟨hL, hR⟩ := hshape
    unfold comparePhase
    dsimp only
    by_cases heq : dfEquals ldf rdf = true
    · rw [if_pos heq]
    · rw [if_neg heq]
      cases kattr with
      | none => rfl
      | some ks =>
        dsimp only
        by_cases hdup : check_duplicate_keys ks ldf rdf = true
        · rw [if_pos hdup]
          rcases hpol with hpol | hpol <;> subst hpol
          · rw [show handle_duplicate_keys "drop" ks ldf =
                (ldf, ks, .pdf (dropIndexDups ldf)) from rfl]
            dsimp only
            cases hv1 : validate_dataframe (some ks)
                (.pdf (dropIndexDups ldf)) "left" with
            | error e =>
              rw [hL]
            | ok ldf2 =>
              rw [show handle_duplicate_keys "drop" ks rdf =
                  (rdf, ks, .pdf (dropIndexDups rdf)) from rfl]
              dsimp only
              cases hv2 : validate_dataframe (some ks)
                  (.pdf (dropIndexDups rdf)) "right" with
              | error e =>
                rw [hL, hR]
              | ok rdf2 =>
                rw [runCompare_frames, hL, hR]
          · rw [show handle_duplicate_keys "aggregate" ks ldf =
                (ldf, ks, .pyNone) from rfl]
            dsimp only
            rw [show validate_dataframe (some ks) PyObj.pyNone "left" =
              .error (.typeError "left must be a pandas DataFrame")
              from rfl]
            rw [hL]
        · rw [if_neg hdup, runCompare_frames]

/-- Counterexample to C6 as stated: under the `'sort'` policy with
duplicate keys present, the caller's left frame is mutated in place — it
acquires a `sort_key` column — even though the constructor then raises. -/
theorem claim_C6_cex :
    (initCompare (.pdf exL9) (.pdf exR9) false (some ["k"]) 0 0 "sort"
      true 1 1).2.1 ≠ .pdf exL9 := by
  with_unfolding_all decide

/-- Witness for the amended C6 at a concrete duplicate-key input under
`'drop'`. -/
theorem claim_C6_witness :
    (initCompare (.pdf exL9) (.pdf exR9) false (some ["k"]) 0 0 "drop"
      true 1 1).2 = (.pdf exL9, .pdf exR9) :=
  claim_C6 (.pdf exL9) (.pdf exR9) false (some ["k"]) 0 0 "drop" true 1 1
    (Or.inl rfl)

/-- C9 (code bug): the parallel path does not equal the single-threaded
path.  On valid tables with unique keys `1, 2` differing only at key `2`,
the serial path completes — though it wrongly writes `0` as key `2`'s
diff, because the loop's label lookups at position 1 fetch key `1`'s
values — while with `pool_size = 2` the second, one-row partition's close
mask restarts at position 0 but its slice of the key index is `[2]`, so
the loop's lookup `col1[0]` raises `KeyError`: the parallel comparison
crashes where the serial one succeeds, so their results cannot be equal. -/
theorem claim_C9 :
    (initCompare (.pdf exL9u) (.pdf exR9u) false (some ["k"]) 0 0 "drop"
        true 1 1).1 =
      .ok { diff := some
              { colNames := ["v"],
                rows := [⟨[fq 2], .both, [fq 20], [fq 21], [.numDiff 0]⟩],
                missingFromRight := none, missingFromLeft := none },
            metadata := [("v_left", 1), ("v_right", 1), ("v_diff", 1)] } ∧
    (initCompare (.pdf exL9u) (.pdf exR9u) false (some ["k"]) 0 0 "drop"
        true 2 1).1 =
      .error (.keyError "label not in index") :=
  ⟨by with_unfolding_all rfl, by with_unfolding_all rfl⟩

/-- C7 (code bug): a key present in only one table does not reliably
appear in the final diff result carrying the sentinel on every compared
column.  Two divergences: (a) `exL5` vs `exR7` — the extra key `2`
carries a null in the only common column `v`, the outer merge fills the
absent side with null too, `Series.equals` sees the aligned columns as
equal (NaN equals NaN in `equals`), `compare_column` returns `None`, and
the one-sided row — with no non-null diff cell — vanishes from the
result entirely; (b) `exL5` vs `exR7b` — the extra key `2` carries the
value `5`, the row is kept and flagged `right_only`, but the loop's
label lookups `col1[1]`/`col2[1]` fetch key `1`'s values `(10, 10)` and
write the numeric difference `0` in the compared column `v`, never the
`DIFF.TRUE` sentinel the claim requires. -/
theorem claim_C7 :
    (initCompare (.pdf exL5) (.pdf exR7) false (some ["k"]) 0 0 "drop"
        true 1 1).1 =
      .ok { diff := some { colNames := [], rows := [],
                           missingFromRight := none,
                           missingFromLeft := none },
            metadata := [] } ∧
    (initCompare (.pdf exL5) (.pdf exR7b) false (some ["k"]) 0 0 "drop"
        true 1 1).1 =
      .ok { diff := some
              { colNames := ["v"],
                rows := [⟨[fq 2], .rightOnly, [.cfloat .fnan], [fq 5],
                          [.numDiff 0]⟩],
                missingFromRight := none, missingFromLeft := none },
            metadata := [("v_left", 0), ("v_right", 1), ("v_diff", 1)] } :=
  ⟨by with_unfolding_all rfl, by with_unfolding_all rfl⟩

end AllSpark
